import Mathlib

/-!
Verification development for the location controller of the Ring plugin
(source file: src/plugins/ring/src/location.ts).

The definitions below are a shallow embedding of that source file: JavaScript
Map objects become association lists, the scrypted string enums become string
constants, the asynchronous constructor is modelled as an explicit trace of
its synchronous phase and the later promise resolutions, and the arm and
discovery methods become pure functions from the controller state to the list
of vendor commands or descriptors they produce.
-/

set_option autoImplicit false

namespace RingLocation

universe u

/-! String literals appearing in the source, bound to names. -/

/-- Literal "disabled": the device status skipped by discovery, and the raw
mode passed to updateLocationMode at line 117 of the source. -/
def disabledLit : String := "disabled"

/-- Literal "-sensor": the native id suffix for sensor devices. -/
def sensorSuffix : String := "-sensor"

/-- Literal "-lock": the native id suffix for lock devices. -/
def lockSuffix : String := "-lock"

/-- Literal "none": the batteryStatus value meaning no battery. -/
def batteryNoneLit : String := "none"

/-- Literal "away": raw location mode. -/
def awayRaw : String := "away"

/-- Literal "home": raw location mode. -/
def homeRaw : String := "home"

/-- Literal "Disabled": value of the nightModeBypassAlarmState setting that
disables night mode. -/
def cfgDisabled : String := "Disabled"

/-- Literal "Away": value of the nightModeBypassAlarmState setting selecting
the arm-away command for night mode. -/
def cfgAway : String := "Away"

/-- Literal "Ring": manufacturer string in descriptors. -/
def ringManufacturer : String := "Ring"

/-- Literal "Unknown": fallback serial number in the device loop. -/
def unknownSerial : String := "Unknown"

/-! Model of a JavaScript Map with string keys. -/

/-- Association list of entries modelling the internal entry list of a
JavaScript Map instance (insertion ordered, unique keys). -/
structure JsMap (α : Type u) where
  entries : List (String × α)
deriving DecidableEq

/-- Entry list update modelling JavaScript Map.prototype.set: when the key is
already present its value is updated in place, otherwise the new entry is
appended at the end. -/
def setEntries {α : Type u} : List (String × α) → String → α → List (String × α)
  | [], k, v => [(k, v)]
  | e :: t, k, v => if e.1 == k then (k, v) :: t else e :: setEntries t k v

/-- Entry list lookup modelling JavaScript Map.prototype.get (undefined
becomes none). -/
def getEntries {α : Type u} : List (String × α) → String → Option α
  | [], _ => none
  | e :: t, k => if e.1 == k then some e.2 else getEntries t k

/-- Model of new Map(). -/
def JsMap.empty {α : Type u} : JsMap α := ⟨[]⟩

/-- Model of Map.prototype.set. -/
def JsMap.set {α : Type u} (m : JsMap α) (k : String) (v : α) : JsMap α :=
  ⟨setEntries m.entries k v⟩

/-- Model of Map.prototype.get. -/
def JsMap.get {α : Type u} (m : JsMap α) (k : String) : Option α :=
  getEntries m.entries k

/-- Model of Map.prototype.has: the key is present exactly when get does not
return undefined. -/
def JsMap.has {α : Type u} (m : JsMap α) (k : String) : Bool :=
  (m.get k).isSome

/-- Model of Map.prototype.clear: all entries are removed. -/
def JsMap.clear {α : Type u} (_m : JsMap α) : JsMap α := ⟨[]⟩

/-- Embedding of the JavaScript expression Object.values(m) where m is a Map
instance. Object.values returns the values of the receiver's own enumerable
string-keyed properties; a Map stores its entries in internal slots, not as
own properties, so Object.values applied to any Map returns the empty array.
The source applies Object.values to the locationDevices Map at line 260. -/
def jsObjectValues {α : Type u} (_m : JsMap α) : List α := []

/-! Scrypted SDK enums used by the source. The SDK package is outside this
repository; the members below are exactly the ones the source mentions. -/

/-- Device types assigned by the source (members of the scrypted
ScryptedDeviceType enum that the source uses). -/
inductive ScryptedDeviceType where
  | Camera
  | Doorbell
  | Sensor
  | Lock
deriving DecidableEq

/-- Interface tags assigned by the source (members of the scrypted
ScryptedInterface enum that the source uses). -/
inductive ScryptedInterface where
  | Camera
  | MotionSensor
  | RTCSignalingChannel
  | VideoCamera
  | Intercom
  | VideoClips
  | Battery
  | BinarySensor
  | DeviceProvider
  | TamperSensor
  | EntrySensor
  | FloodSensor
  | Lock
deriving DecidableEq

/-- Modelled from the spec: the scrypted SecuritySystemMode enum is a string
enum (the SDK is not part of src/), so a mode value received at runtime is a
string and the four enum members are string constants. -/
abbrev SecuritySystemMode : Type := String

/-- SecuritySystemMode.Disarmed member. -/
def SecuritySystemMode.Disarmed : SecuritySystemMode := "Disarmed"

/-- SecuritySystemMode.HomeArmed member. -/
def SecuritySystemMode.HomeArmed : SecuritySystemMode := "HomeArmed"

/-- SecuritySystemMode.AwayArmed member. -/
def SecuritySystemMode.AwayArmed : SecuritySystemMode := "AwayArmed"

/-- SecuritySystemMode.NightArmed member. -/
def SecuritySystemMode.NightArmed : SecuritySystemMode := "NightArmed"

/-- Modelled from the spec: RingDeviceType.ContactSensor member of the vendor
client enum (the vendor client is not under src/; the exact string only has to
be distinct from the other device type tags and not match the lock pattern). -/
def RingDeviceType.ContactSensor : String := "sensor.contact"

/-- Modelled from the spec: RingDeviceType.RetrofitZone member. -/
def RingDeviceType.RetrofitZone : String := "sensor.zone"

/-- Modelled from the spec: RingDeviceType.TiltSensor member. -/
def RingDeviceType.TiltSensor : String := "sensor.tilt"

/-- Modelled from the spec: RingDeviceType.MotionSensor member. -/
def RingDeviceType.MotionSensor : String := "sensor.motion"

/-- Modelled from the spec: RingDeviceType.FloodFreezeSensor member. -/
def RingDeviceType.FloodFreezeSensor : String := "sensor.flood-freeze"

/-- Modelled from the spec: RingDeviceType.WaterSensor member. -/
def RingDeviceType.WaterSensor : String := "sensor.water"

/-! Vendor records, as read by the source. -/

/-- Fields of RingDeviceData that the source reads: status, deviceType,
batteryStatus, faulted, serialNumber (serialNumber may be absent, modelled as
an option). -/
structure RingDeviceData where
  status : String
  deviceType : String
  batteryStatus : String
  faulted : Bool
  serialNumber : Option String
deriving DecidableEq

/-- Fields of a vendor RingDevice that the source reads: its id (a zid
string; the source calls toString() on it, which is the identity on strings),
its display name, and its data record. -/
structure RingDevice where
  id : String
  name : String
  data : RingDeviceData
deriving DecidableEq

/-- Modelled from the spec: the vendor client exposes deviceType on the
RingDevice wrapper as the deviceType of its data record (the wrapper class is
not under src/; the source reads device.deviceType at lines 204 and 261). -/
def RingDevice.deviceType (d : RingDevice) : String := d.data.deviceType

/-- Fields of a vendor RingCamera that the source reads, plus a status field.
The status field is modelled from the spec: vendor records carry a status
flag; the camera iteration in the source never reads it. -/
structure RingCamera where
  id : Nat
  name : String
  isRingEdgeEnabled : Bool
  operatingOnBattery : Bool
  isDoorbot : Bool
  hasLight : Bool
  hasSiren : Bool
  model : String
  kind : String
  firmwareVersion : String
  deviceId : String
  status : String
deriving DecidableEq

/-- Value stored in the locationDevices index: a RingDevice or a RingCamera,
matching the Map value type RingDevice | RingCamera at line 65. -/
inductive LocationDeviceRecord where
  | camera (c : RingCamera)
  | device (d : RingDevice)
deriving DecidableEq

/-- Reading device.deviceType on an indexed record: a RingCamera has no
deviceType property, so the JavaScript read yields undefined (none). -/
def LocationDeviceRecord.deviceTypeField : LocationDeviceRecord → Option String
  | .camera _ => none
  | .device d => some d.deviceType

/-- Reading device.data.faulted on an indexed record: camera data has no
faulted property, so the read is falsy for cameras. -/
def LocationDeviceRecord.faultedField : LocationDeviceRecord → Bool
  | .camera _ => false
  | .device d => d.data.faulted

/-- Reading device.id on an indexed record (camera ids are numbers, device
ids are zid strings; both are used as bypass identifiers via sensor.id). -/
def LocationDeviceRecord.recId : LocationDeviceRecord → String
  | .camera c => toString c.id
  | .device d => d.id

/-- Location fields the source reads: id, the cameras collection, the list
returned by getDevices(), and the hasAlarmBaseStation flag. -/
structure Location where
  id : String
  cameras : List RingCamera
  devicesList : List RingDevice
  hasAlarmBaseStation : Bool
deriving DecidableEq

/-! The security state snapshot and its reconciler transition function. -/

/-- Security system state snapshot assigned at lines 89 to 94. -/
structure SecurityState where
  mode : SecuritySystemMode
  triggered : Bool
  supportedModes : List SecuritySystemMode
deriving DecidableEq

/-- Embedding of the updateLocationMode closure (lines 71 to 95): map the raw
location mode to a scrypted mode, build the supported mode list, and produce
the snapshot with triggered always false. The first argument is the
nightModeBypassAlarmState configuration value read at line 85. -/
def updateLocationMode (cfg : String) (f : String) : SecurityState :=
  let mode : SecuritySystemMode :=
    if f == awayRaw then SecuritySystemMode.AwayArmed
    else if f == homeRaw then SecuritySystemMode.HomeArmed
    else SecuritySystemMode.Disarmed
  let base : List SecuritySystemMode :=
    [SecuritySystemMode.Disarmed, SecuritySystemMode.AwayArmed,
      SecuritySystemMode.HomeArmed]
  let supportedModes : List SecuritySystemMode :=
    if cfg != cfgDisabled then base ++ [SecuritySystemMode.NightArmed] else base
  { mode := mode, triggered := false, supportedModes := supportedModes }

/-! Device descriptors (the Device objects pushed by discoverDevices). -/

/-- Info block of a descriptor (model, manufacturer, firmware, serial); the
device loop omits firmware, modelled as none. -/
structure DeviceInfo where
  model : String
  manufacturer : String
  firmware : Option String
  serialNumber : Option String
deriving DecidableEq

/-- Device descriptor pushed to the devices list during discovery. -/
structure Device where
  info : DeviceInfo
  providerNativeId : String
  nativeId : String
  name : String
  type : ScryptedDeviceType
  interfaces : List ScryptedInterface
deriving DecidableEq

/-- Interface list built for a camera at lines 130 to 149, in push order:
the base interfaces, then VideoCamera, Intercom and VideoClips unless Ring
Edge is enabled, then Battery if on battery, BinarySensor if a doorbell,
and one DeviceProvider per accessory (light, siren). -/
def cameraInterfaces (c : RingCamera) : List ScryptedInterface :=
  [ScryptedInterface.Camera, ScryptedInterface.MotionSensor,
    ScryptedInterface.RTCSignalingChannel]
  ++ (if !c.isRingEdgeEnabled then
        [ScryptedInterface.VideoCamera, ScryptedInterface.Intercom,
          ScryptedInterface.VideoClips]
      else [])
  ++ (if c.operatingOnBattery then [ScryptedInterface.Battery] else [])
  ++ (if c.isDoorbot then [ScryptedInterface.BinarySensor] else [])
  ++ (if c.hasLight then [ScryptedInterface.DeviceProvider] else [])
  ++ (if c.hasSiren then [ScryptedInterface.DeviceProvider] else [])

/-- Descriptor built for a camera at lines 150 to 162. -/
def cameraDescriptor (locId : String) (c : RingCamera) : Device :=
  { info :=
      { model := c.model ++ " (" ++ c.kind ++ ")"
        manufacturer := ringManufacturer
        firmware := some c.firmwareVersion
        serialNumber := some c.deviceId }
    providerNativeId := locId
    nativeId := toString c.id
    name := c.name
    type := if c.isDoorbot then ScryptedDeviceType.Doorbell
            else ScryptedDeviceType.Camera
    interfaces := cameraInterfaces c }

/-- Embedding of the JavaScript string test s.startsWith(pre). -/
def strStartsWith (s pre : String) : Bool := pre.data.isPrefixOf s.data

/-- Embedding of the JavaScript string test s.endsWith(post). -/
def strEndsWith (s post : String) : Bool := post.data.isSuffixOf s.data

/-- Literal "lock": the whole-token lock device type tag. -/
def lockLit : String := "lock"

/-- Literal "lock.": the dotted prefix form of the lock device type tag. -/
def lockDotLit : String := "lock."

/-- Test of the regular expression matching lock device types at line 198:
the whole-token "lock" or any tag starting with the dotted form. -/
def lockTypeTest (s : String) : Bool := s == lockLit || strStartsWith s lockDotLit

/-- Battery interface push applied after the device type switch at lines 209
to 210: append Battery when batteryStatus is not "none". -/
def batteryFix (d : RingDevice)
    (x : String × ScryptedDeviceType × List ScryptedInterface) :
    String × ScryptedDeviceType × List ScryptedInterface :=
  (x.1, x.2.1,
    if d.data.batteryStatus != batteryNoneLit then
      x.2.2 ++ [ScryptedInterface.Battery]
    else x.2.2)

/-- Classification of one generic location device (lines 174 to 210): the
disabled status check, the switch over deviceType choosing native id suffix,
type and interfaces (with continue modelled as none), and the battery
interface push on every non-skipped branch. The result carries the native id,
the scrypted type and the interface list. -/
def locationDeviceClassify (d : RingDevice) :
    Option (String × ScryptedDeviceType × List ScryptedInterface) :=
  if d.data.status == disabledLit then none
  else if d.data.deviceType == RingDeviceType.ContactSensor
      || d.data.deviceType == RingDeviceType.RetrofitZone
      || d.data.deviceType == RingDeviceType.TiltSensor then
    some (batteryFix d (d.id ++ sensorSuffix, ScryptedDeviceType.Sensor,
      [ScryptedInterface.TamperSensor, ScryptedInterface.EntrySensor]))
  else if d.data.deviceType == RingDeviceType.MotionSensor then
    some (batteryFix d (d.id ++ sensorSuffix, ScryptedDeviceType.Sensor,
      [ScryptedInterface.TamperSensor, ScryptedInterface.MotionSensor]))
  else if d.data.deviceType == RingDeviceType.FloodFreezeSensor
      || d.data.deviceType == RingDeviceType.WaterSensor then
    some (batteryFix d (d.id ++ sensorSuffix, ScryptedDeviceType.Sensor,
      [ScryptedInterface.TamperSensor, ScryptedInterface.FloodSensor]))
  else if lockTypeTest d.data.deviceType then
    some (batteryFix d (d.id ++ lockSuffix, ScryptedDeviceType.Lock,
      [ScryptedInterface.Lock]))
  else none

/-- Descriptor built for a classified location device at lines 212 to 223. -/
def locationDeviceDescriptor (locId : String) (d : RingDevice)
    (nid : String) (ty : ScryptedDeviceType)
    (ifs : List ScryptedInterface) : Device :=
  { info :=
      { model := d.data.deviceType
        manufacturer := ringManufacturer
        firmware := none
        serialNumber := some (d.data.serialNumber.getD unknownSerial) }
    providerNativeId := locId
    nativeId := nid
    name := d.name
    type := ty
    interfaces := ifs }

/-- Batch call to deviceManager.onDevicesChanged at lines 228 to 231. -/
structure BatchCall where
  providerNativeId : String
  devices : List Device
deriving DecidableEq

/-- Result of one discoverDevices run: the descriptor list, the rebuilt
locationDevices index, and the batch calls issued to the host registry. -/
structure DiscoveryResult where
  descriptors : List Device
  index : JsMap LocationDeviceRecord
  batch : List BatchCall
deriving DecidableEq

/-- One camera loop iteration (lines 128 to 165): push the descriptor and
index the camera under its native id. -/
def camStep (locId : String)
    (acc : List Device × JsMap LocationDeviceRecord) (c : RingCamera) :
    List Device × JsMap LocationDeviceRecord :=
  (acc.1 ++ [cameraDescriptor locId c],
    acc.2.set (toString c.id) (LocationDeviceRecord.camera c))

/-- One device loop iteration (lines 168 to 226): classify; on continue the
accumulators are untouched, otherwise push the descriptor and index the
device under its native id. -/
def devStep (locId : String)
    (acc : List Device × JsMap LocationDeviceRecord) (d : RingDevice) :
    List Device × JsMap LocationDeviceRecord :=
  match locationDeviceClassify d with
  | none => acc
  | some (nid, ty, ifs) =>
      (acc.1 ++ [locationDeviceDescriptor locId d nid ty ifs],
        acc.2.set nid (LocationDeviceRecord.device d))

/-- Embedding of discoverDevices (lines 124 to 232): clear the index, run the
camera loop, run the generic device loop over the list returned by
getDevices(), and publish the full descriptor list in one batch call. -/
def discoverDevices (loc : Location) (prev : JsMap LocationDeviceRecord) :
    DiscoveryResult :=
  let cleared := prev.clear
  let afterCams := loc.cameras.foldl (camStep loc.id) ([], cleared)
  let afterDevs := loc.devicesList.foldl (devStep loc.id) afterCams
  { descriptors := afterDevs.1
    index := afterDevs.2
    batch := [{ providerNativeId := loc.id, devices := afterDevs.1 }] }

/-! The device cache (getDevice) and the controller state. -/

/-- Construction path chosen by getDevice: the RingSensor, RingLock or
RingCameraDevice class. -/
inductive InstanceKind where
  | sensor
  | lock
  | camera
deriving DecidableEq

/-- A constructed local device instance. The token is a fresh number
allocated at construction, standing in for JavaScript object identity: two
constructions never share a token, so token equality is reference
identity. -/
structure DeviceInstance where
  kind : InstanceKind
  nativeId : String
  backing : Option LocationDeviceRecord
  token : Nat
deriving DecidableEq

/-- Mutable fields of the RingLocationDevice controller that the embedded
methods touch: the devices cache, the locationDevices index, the stored
security snapshot, and the allocator for construction tokens. -/
structure ControllerState where
  devices : JsMap DeviceInstance
  locationDevices : JsMap LocationDeviceRecord
  securitySystemState : Option SecurityState
  nextToken : Nat
deriving DecidableEq

/-- Instance built inside getDevice when the id is absent (lines 236 to 245):
the class is chosen by the native id suffix, the backing record is looked up
in the locationDevices index, and the construction receives a fresh token. -/
def constructedInstance (st : ControllerState) (nid : String) : DeviceInstance :=
  if strEndsWith nid sensorSuffix then
    { kind := InstanceKind.sensor, nativeId := nid,
      backing := st.locationDevices.get nid, token := st.nextToken }
  else if strEndsWith nid lockSuffix then
    { kind := InstanceKind.lock, nativeId := nid,
      backing := st.locationDevices.get nid, token := st.nextToken }
  else
    { kind := InstanceKind.camera, nativeId := nid,
      backing := st.locationDevices.get nid, token := st.nextToken }

/-- Embedding of getDevice (lines 234 to 248): when the cache has no entry
for the id, construct and store an instance; then return the cache entry. -/
def getDevice (st : ControllerState) (nid : String) :
    Option DeviceInstance × ControllerState :=
  let st1 :=
    if st.devices.has nid then st
    else
      { st with
          devices := st.devices.set nid (constructedInstance st nid)
          nextToken := st.nextToken + 1 }
  (st1.devices.get nid, st1)

/-! Arm and disarm. -/

/-- Vendor commands issued by the arm and disarm methods. The bypass
argument distinguishes a call with no argument (none) from a call passing a
bypass identifier list. -/
inductive VendorCommand where
  | armAway (bypass : Option (List String))
  | armHome (bypass : Option (List String))
  | disarm
deriving DecidableEq

/-- Embedding of armSecuritySystem (lines 252 to 273): the chain of mode
comparisons; for NightArmed the bypass list is computed by filtering
Object.values of the locationDevices Map for faulted contact or retrofit
zone devices and mapping to ids, and the configuration value selects arm
away (when "Away") or arm home. A mode matching no branch issues nothing.
The method never assigns controller state, so the state is returned
unchanged. -/
def armSecuritySystemRun (cfg : String) (st : ControllerState)
    (mode : SecuritySystemMode) : List VendorCommand × ControllerState :=
  if mode == SecuritySystemMode.AwayArmed then
    ([VendorCommand.armAway none], st)
  else if mode == SecuritySystemMode.HomeArmed then
    ([VendorCommand.armHome none], st)
  else if mode == SecuritySystemMode.NightArmed then
    let bypassContactSensors : List String :=
      ((jsObjectValues st.locationDevices).filter fun device =>
          (device.deviceTypeField == some RingDeviceType.ContactSensor
            || device.deviceTypeField == some RingDeviceType.RetrofitZone)
          && device.faultedField).map LocationDeviceRecord.recId
    if cfg == cfgAway then
      ([VendorCommand.armAway (some bypassContactSensors)], st)
    else
      ([VendorCommand.armHome (some bypassContactSensors)], st)
  else if mode == SecuritySystemMode.Disarmed then
    ([VendorCommand.disarm], st)
  else
    ([], st)

/-- Embedding of disarmSecuritySystem (lines 275 to 277). -/
def disarmSecuritySystemRun (st : ControllerState) :
    List VendorCommand × ControllerState :=
  ([VendorCommand.disarm], st)

/-! Constructor models. -/

/-- Application of a pending getLocationMode promise: when the query
resolves with a mode, its then-callback applies updateLocationMode to it,
overwriting the snapshot; when it never resolves the snapshot is
unchanged. -/
def applyFetchedMode (cfg : String) (st : Option SecurityState)
    (fetched : Option String) : Option SecurityState :=
  match fetched with
  | some m => some (updateLocationMode cfg m)
  | none => st

/-- Trace of the base station initialization block (lines 111 to 119):
whether the forced initialization fired, the snapshot when the constructor
body finishes (the synchronous phase), and the snapshot after the pending
getLocationMode promise has resolved. -/
structure ConstructorTrace where
  forcedInitFired : Bool
  stateAfterSync : Option SecurityState
  finalState : Option SecurityState
deriving DecidableEq

/-- Embedding of the base station initialization block (lines 111 to 119).
The getLocationMode call at line 112 is asynchronous: its then-callback runs
after the constructor body, so the check at line 116 reads the snapshot
present during the constructor body (the init argument) and, when it is
absent, applies updateLocationMode to the literal "disabled" synchronously.
The fetched mode, when the promise resolves, is applied afterwards. -/
def constructorSecurityInit (cfg : String) (hasBase : Bool)
    (init : Option SecurityState) (fetched : Option String) :
    ConstructorTrace :=
  if hasBase then
    let afterSync :=
      if init.isNone then some (updateLocationMode cfg disabledLit) else init
    { forcedInitFired := init.isNone
      stateAfterSync := afterSync
      finalState := applyFetchedMode cfg afterSync fetched }
  else
    { forcedInitFired := false, stateAfterSync := init, finalState := init }

/-- Steps the constructor performs, in order, as far as the claims about it
reach: the mode feed subscription (line 96), the panel feed subscription
(lines 100 to 105), an error log, the base station mode fetch and forced
initialization (lines 111 to 119), and the discovery kick-off (line 121). -/
inductive ConstructorStep where
  | subscribeModeFeed
  | subscribePanelFeed
  | logError (msg : String)
  | fetchLocationMode
  | forceInitDisarmed
  | runDiscovery
deriving DecidableEq

/-- Steps contributed by the getSecurityPanel resolution (lines 100 to 109):
on success the then-callback subscribes to the panel feed; on failure the
catch handler at lines 106 to 109 has an empty body, so the rejection is
swallowed with no step at all (in particular no error log). -/
def panelResolutionSteps : Except String Unit → List ConstructorStep
  | Except.ok _ => [ConstructorStep.subscribePanelFeed]
  | Except.error _ => []

/-- Embedding of the constructor's effect sequence (lines 96 to 121). The
Except result models an exception escaping construction: none does, because
the only fallible step, panel resolution, is wrapped in the catch handler. -/
def constructorSteps (panel : Except String Unit) (hasBase : Bool)
    (hasSnapshot : Bool) : Except String (List ConstructorStep) :=
  Except.ok
    ([ConstructorStep.subscribeModeFeed]
      ++ panelResolutionSteps panel
      ++ (if hasBase then
            [ConstructorStep.fetchLocationMode]
              ++ (if hasSnapshot then [] else [ConstructorStep.forceInitDisarmed])
          else [])
      ++ [ConstructorStep.runDiscovery])

/-- Step list carried by a constructor run that did not throw. -/
def stepsOf : Except String (List ConstructorStep) → List ConstructorStep
  | Except.ok l => l
  | Except.error _ => []

/-! Concrete fixtures used by counterexamples and witnesses. -/

/-- A faulted contact sensor device record. -/
def faultedContact1 : RingDevice :=
  { id := "z1", name := "front door"
    data :=
      { status := "ok", deviceType := RingDeviceType.ContactSensor
        batteryStatus := "full", faulted := true, serialNumber := none } }

/-- Controller state whose locationDevices index holds the faulted contact
sensor under its native id, with an empty device cache. -/
def c1State : ControllerState :=
  { devices := JsMap.empty
    locationDevices :=
      JsMap.empty.set (faultedContact1.id ++ sensorSuffix)
        (LocationDeviceRecord.device faultedContact1)
    securitySystemState := none
    nextToken := 0 }

/-- A controller state with empty cache and empty index. -/
def emptyState : ControllerState :=
  { devices := JsMap.empty
    locationDevices := JsMap.empty
    securitySystemState := none
    nextToken := 0 }

/-- A camera record whose status field is "disabled". -/
def disabledCam : RingCamera :=
  { id := 7, name := "porch", isRingEdgeEnabled := false
    operatingOnBattery := true, isDoorbot := true, hasLight := false
    hasSiren := false, model := "m", kind := "k", firmwareVersion := "f"
    deviceId := "sn", status := disabledLit }

/-- A location whose only record is the disabled camera. -/
def locC2 : Location :=
  { id := "loc1", cameras := [disabledCam], devicesList := []
    hasAlarmBaseStation := false }

/-- A non-disabled contact sensor record. -/
def sensorOk : RingDevice :=
  { id := "z2", name := "window"
    data :=
      { status := "ok", deviceType := RingDeviceType.ContactSensor
        batteryStatus := "full", faulted := false, serialNumber := none } }

/-- A contact sensor record identical to sensorOk in type tag and battery
status but with status "disabled". -/
def sensorDisabled : RingDevice :=
  { id := "z3", name := "window2"
    data :=
      { status := disabledLit, deviceType := RingDeviceType.ContactSensor
        batteryStatus := "full", faulted := false, serialNumber := none } }

/-- A contact sensor record agreeing with sensorOk on every classification
input but differing in id, name and serial number. -/
def sensorOkOther : RingDevice :=
  { id := "z9", name := "back window"
    data :=
      { status := "fine", deviceType := RingDeviceType.ContactSensor
        batteryStatus := "low", faulted := true
        serialNumber := some "s9" } }

/-- A doorbell camera record. -/
def doorbotCam : RingCamera :=
  { id := 11, name := "door", isRingEdgeEnabled := true
    operatingOnBattery := false, isDoorbot := true, hasLight := true
    hasSiren := false, model := "m1", kind := "k1", firmwareVersion := "f1"
    deviceId := "sn1", status := "ok" }

/-- A doorbell camera record agreeing with doorbotCam on every flag but
differing in id, name and metadata. -/
def doorbotCamOther : RingCamera :=
  { id := 12, name := "gate", isRingEdgeEnabled := true
    operatingOnBattery := false, isDoorbot := true, hasLight := true
    hasSiren := false, model := "m2", kind := "k2", firmwareVersion := "f2"
    deviceId := "sn2", status := "busy" }

/-- A mode string that is none of the four SecuritySystemMode members. -/
def strangeMode : SecuritySystemMode := "banana"

/-- A nightModeBypassAlarmState value different from "Away" (and from
"Disabled"). -/
def cfgHome : String := "Home"

/-- A provider native id used in witnesses. -/
def locAId : String := "locA"

/-- Another provider native id used in witnesses. -/
def locBId : String := "locB"

/-- A native id with the sensor suffix used in witnesses. -/
def nidSensorW : String := "z1-sensor"

/-- A log message string used in witnesses. -/
def failMsg : String := "no panel"

/-! Helper lemmas about the Map model and folds. -/

theorem getEntries_setEntries_self {α : Type u} (l : List (String × α))
    (k : String) (v : α) : getEntries (setEntries l k v) k = some v := by
  induction l with
  | nil => simp [setEntries, getEntries]
  | cons e t ih =>
      by_cases h : e.1 == k
      · simp [setEntries, getEntries, h]
      · simp only [setEntries, getEntries, h, if_neg, Bool.false_eq_true,
          ite_false]
        simpa [getEntries, h] using ih

theorem JsMap.get_set_self {α : Type u} (m : JsMap α) (k : String) (v : α) :
    (m.set k v).get k = some v :=
  getEntries_setEntries_self m.entries k v

theorem foldl_filter_of_id {α β : Type u} (f : β → α → β) (p : α → Bool)
    (hf : ∀ acc a, p a = false → f acc a = acc) :
    ∀ (l : List α) (acc : β), l.foldl f acc = (l.filter p).foldl f acc := by
  intro l
  induction l with
  | nil => intro acc; rfl
  | cons a t ih =>
      intro acc
      by_cases h : p a
      · simp [List.filter, h, ih]
      · have h' : p a = false := by simpa using h
        simp [List.filter, h', hf acc a h', ih]

theorem locationDeviceClassify_disabled (d : RingDevice)
    (h : d.data.status = disabledLit) : locationDeviceClassify d = none := by
  simp [locationDeviceClassify, h]

theorem beq_congr_of_iff {a b c : String} (h : a = c ↔ b = c) :
    (a == c) = (b == c) := by
  by_cases ha : a = c
  · simp [ha, h.mp ha]
  · have hb : ¬b = c := fun hb => ha (h.mpr hb)
    simp [ha, hb]

/-! Claim theorems. -/

/-- C1: the claim says a NightArmed arm passes exactly the currently faulted
contact and retrofit zone sensor identifiers as the bypass list. The code
instead always passes an empty bypass list: the filter runs over
Object.values of the locationDevices Map, which is empty for every Map, so
the faulted sensor stored in the index contributes nothing. This theorem
evaluates the embedded method at a state holding a faulted contact sensor:
the index contains the sensor, yet both configuration branches issue their
command with the bypass list some [] instead of the sensor id. -/
theorem night_arm_bypass_list_empty_at_faulted_sensor :
    faultedContact1.data.faulted = true
  ∧ faultedContact1.data.deviceType = RingDeviceType.ContactSensor
  ∧ c1State.locationDevices.get (faultedContact1.id ++ sensorSuffix)
      = some (LocationDeviceRecord.device faultedContact1)
  ∧ armSecuritySystemRun cfgHome c1State SecuritySystemMode.NightArmed
      = ([VendorCommand.armHome (some [])], c1State)
  ∧ armSecuritySystemRun cfgAway c1State SecuritySystemMode.NightArmed
      = ([VendorCommand.armAway (some [])], c1State) :=
  ⟨rfl, rfl, rfl, rfl, rfl⟩

/-- C2 counterexample: the claim says a record with status "disabled" never
contributes a descriptor in either iteration, but the camera iteration never
reads the status field, so a camera whose status is "disabled" still yields
its descriptor. -/
theorem disabled_camera_still_discovered :
    disabledCam.status = disabledLit
  ∧ (discoverDevices locC2 JsMap.empty).descriptors
      = [cameraDescriptor locC2.id disabledCam] :=
  ⟨rfl, rfl⟩

/-- C2 amended: generic device records with status "disabled" contribute
nothing to a discovery run — removing every disabled record from the device
list leaves the whole result (descriptors, index and batch call) unchanged.
The camera iteration performs no status filtering. -/
theorem discovery_skips_disabled_generic_devices (loc : Location)
    (prev : JsMap LocationDeviceRecord) :
    discoverDevices loc prev
      = discoverDevices
          { loc with devicesList :=
              loc.devicesList.filter fun d => !(d.data.status == disabledLit) }
          prev := by
  have hf : ∀ (acc : List Device × JsMap LocationDeviceRecord) (d : RingDevice),
      (fun d : RingDevice => !(d.data.status == disabledLit)) d = false →
      devStep loc.id acc d = acc := by
    intro acc d h
    have hs : d.data.status = disabledLit := by simpa using h
    simp [devStep, locationDeviceClassify_disabled d hs]
  simp only [discoverDevices]
  rw [foldl_filter_of_id (devStep loc.id) _ hf]

/-- C3 counterexample: the claim says the forced initialization to Disarmed
happens only if no snapshot exists after the fetched mode has been applied.
With no prior snapshot and a fetch that resolves with "away", applying the
fetched mode yields a snapshot, so under the claim the forced initialization
must not fire — yet the code fires it, because the check at line 116 runs
synchronously before the getLocationMode promise resolves. -/
theorem forced_init_fires_despite_fetched_mode :
    (constructorSecurityInit cfgHome true none (some awayRaw)).forcedInitFired
      = true
  ∧ (applyFetchedMode cfgHome none (some awayRaw)).isSome = true
  ∧ applyFetchedMode cfgHome none (some awayRaw)
      = some (updateLocationMode cfgHome awayRaw) :=
  ⟨rfl, rfl, rfl⟩

/-- C3 amended: when the location has an alarm base station, the constructor
issues the mode fetch, and the forced initialization to Disarmed fires
exactly when no snapshot exists at construction time, before the fetched
mode is applied; the fetched mode, once resolved, overwrites that forced
value, and in every case the stored state is some snapshot from that point
on (never left unknown). -/
theorem basestation_init_forces_disarmed_synchronously (cfg : String)
    (init : Option SecurityState) (fetched : Option String) :
    (constructorSecurityInit cfg true init fetched).forcedInitFired
      = init.isNone
  ∧ (constructorSecurityInit cfg true init fetched).stateAfterSync
      = (if init.isNone then some (updateLocationMode cfg disabledLit)
         else init)
  ∧ (updateLocationMode cfg disabledLit).mode = SecuritySystemMode.Disarmed
  ∧ (constructorSecurityInit cfg true init fetched).stateAfterSync.isSome
      = true
  ∧ (constructorSecurityInit cfg true init fetched).finalState.isSome = true
  ∧ (constructorSecurityInit cfg true init fetched).finalState
      = applyFetchedMode cfg
          ((constructorSecurityInit cfg true init fetched).stateAfterSync)
          fetched := by
  have h3 : (updateLocationMode cfg disabledLit).mode
      = SecuritySystemMode.Disarmed := rfl
  cases init <;> cases fetched <;>
    simp [constructorSecurityInit, applyFetchedMode, h3]

/-- C4: for every configuration value and raw mode, the reconciler
transition maps "away" to AwayArmed, "home" to HomeArmed and anything else
to Disarmed; triggered is always false; and the supported mode list is
Disarmed, AwayArmed, HomeArmed with NightArmed appended exactly when the
configuration value is not "Disabled". -/
theorem updateLocationMode_transition (cfg f : String) :
    (updateLocationMode cfg f).mode
      = (if f = awayRaw then SecuritySystemMode.AwayArmed
         else if f = homeRaw then SecuritySystemMode.HomeArmed
         else SecuritySystemMode.Disarmed)
  ∧ (updateLocationMode cfg f).triggered = false
  ∧ (updateLocationMode cfg f).supportedModes
      = [SecuritySystemMode.Disarmed, SecuritySystemMode.AwayArmed,
          SecuritySystemMode.HomeArmed]
        ++ (if cfg = cfgDisabled then [] else [SecuritySystemMode.NightArmed])
  ∧ (SecuritySystemMode.NightArmed ∈ (updateLocationMode cfg f).supportedModes
      ↔ cfg ≠ cfgDisabled) := by
  refine ⟨?_, rfl, ?_, ?_⟩
  · by_cases ha : f = awayRaw <;> by_cases hh : f = homeRaw <;>
      simp [updateLocationMode, ha, hh]
  · by_cases hc : cfg = cfgDisabled <;> simp [updateLocationMode, hc]
  · by_cases hc : cfg = cfgDisabled <;>
      simp [updateLocationMode, hc, SecuritySystemMode.NightArmed,
        SecuritySystemMode.Disarmed, SecuritySystemMode.AwayArmed,
        SecuritySystemMode.HomeArmed]

/-- C4 witness: the transition theorem evaluated at the configuration value
"Away" and the raw mode "away". -/
theorem updateLocationMode_transition_witness :
    (updateLocationMode cfgAway awayRaw).mode = SecuritySystemMode.AwayArmed
  ∧ SecuritySystemMode.NightArmed
      ∈ (updateLocationMode cfgAway awayRaw).supportedModes :=
  ⟨((updateLocationMode_transition cfgAway awayRaw).1).trans (by decide),
    ((updateLocationMode_transition cfgAway awayRaw).2.2.2).mpr (by decide)⟩

/-- C5: getDevice is a memoized construction. A second call with the same
identifier returns the same instance (value equality on instances carrying a
unique construction token is reference identity) and leaves the state
untouched, so no second instance is ever constructed; when the identifier is
cached the state is already untouched on the first call; when it is absent
the first call constructs exactly one instance — via the suffix-driven path
recorded in constructedInstance — stores it, and returns it. -/
theorem getDevice_memoized_single_construction (st : ControllerState)
    (nid : String) :
    (getDevice (getDevice st nid).2 nid).1 = (getDevice st nid).1
  ∧ (getDevice (getDevice st nid).2 nid).2 = (getDevice st nid).2
  ∧ (st.devices.has nid = true → (getDevice st nid).2 = st)
  ∧ (st.devices.has nid = false →
        (getDevice st nid).1 = some (constructedInstance st nid)
      ∧ (getDevice st nid).2.nextToken = st.nextToken + 1
      ∧ (getDevice st nid).2.devices.get nid
          = some (constructedInstance st nid)) := by
  by_cases h : st.devices.has nid
  · simp [getDevice, h]
  · have h' : st.devices.has nid = false := by simpa using h
    have hget : (st.devices.set nid (constructedInstance st nid)).get nid
        = some (constructedInstance st nid) := JsMap.get_set_self _ _ _
    have hhas : (st.devices.set nid (constructedInstance st nid)).has nid
        = true := by simp [JsMap.has, hget]
    simp [getDevice, h', hget, hhas]

/-- C5 witness: the memoization theorem applied to the empty controller
state and a sensor-suffixed identifier, discharging the absent-entry
hypothesis. -/
theorem getDevice_memoized_single_construction_witness :
    emptyState.devices.has nidSensorW = false
  ∧ ((getDevice emptyState nidSensorW).1
      = some (constructedInstance emptyState nidSensorW)
    ∧ (getDevice emptyState nidSensorW).2.nextToken
        = emptyState.nextToken + 1
    ∧ (getDevice emptyState nidSensorW).2.devices.get nidSensorW
        = some (constructedInstance emptyState nidSensorW)) :=
  ⟨rfl,
    (getDevice_memoized_single_construction emptyState nidSensorW).2.2.2 rfl⟩

/-- C6: a discovery run is a function of the upstream collections alone: a
second run, even starting from the index the first run left behind, returns
the same descriptor list (equal as lists, hence as sets) and the same index;
the index is fully rebuilt, being identical to the one produced from an
empty index; and the full descriptor list is published in exactly one batch
call to the host registry. -/
theorem discovery_rerun_stable (loc : Location)
    (prev : JsMap LocationDeviceRecord) :
    discoverDevices loc ((discoverDevices loc prev).index)
      = discoverDevices loc prev
  ∧ (discoverDevices loc prev).index
      = (discoverDevices loc JsMap.empty).index
  ∧ (discoverDevices loc prev).batch
      = [{ providerNativeId := loc.id
           devices := (discoverDevices loc prev).descriptors }] :=
  ⟨rfl, rfl, rfl⟩

/-- C7: when security panel resolution fails, construction still returns
normally (the result is ok, no exception escapes), the mode feed
subscription is among the performed steps, the failure produces no steps at
all — in particular no error log — and the rest of the constructor runs
regardless of the base station flag or snapshot presence. -/
theorem panel_resolution_failure_silent (e : String)
    (hasBase hasSnapshot : Bool) :
    constructorSteps (Except.error e) hasBase hasSnapshot
      = Except.ok
          (stepsOf (constructorSteps (Except.error e) hasBase hasSnapshot))
  ∧ ConstructorStep.subscribeModeFeed
      ∈ stepsOf (constructorSteps (Except.error e) hasBase hasSnapshot)
  ∧ (∀ m : String, ConstructorStep.logError m
      ∉ stepsOf (constructorSteps (Except.error e) hasBase hasSnapshot))
  ∧ panelResolutionSteps (Except.error e) = [] := by
  refine ⟨rfl, ?_, ?_, rfl⟩ <;>
    cases hasBase <;> cases hasSnapshot <;>
      simp [constructorSteps, stepsOf, panelResolutionSteps]

/-- C7 witness: the panel failure theorem evaluated at a concrete error and
flags, with the universally quantified log message instantiated. -/
theorem panel_resolution_failure_silent_witness :
    ConstructorStep.subscribeModeFeed
      ∈ stepsOf (constructorSteps (Except.error failMsg) false false)
  ∧ ConstructorStep.logError failMsg
      ∉ stepsOf (constructorSteps (Except.error failMsg) false false) :=
  ⟨(panel_resolution_failure_silent failMsg false false).2.1,
    (panel_resolution_failure_silent failMsg false false).2.2.1 failMsg⟩

/-- C8: armSecuritySystem and disarmSecuritySystem never write any
controller state — for every requested mode the returned state is the input
state, so in particular the stored security snapshot is untouched; only the
feed update path (updateLocationMode) produces snapshots. -/
theorem arm_disarm_do_not_write_snapshot (cfg : String)
    (st : ControllerState) (mode : SecuritySystemMode) :
    (armSecuritySystemRun cfg st mode).2 = st
  ∧ (armSecuritySystemRun cfg st mode).2.securitySystemState
      = st.securitySystemState
  ∧ (disarmSecuritySystemRun st).2 = st := by
  have h1 : (armSecuritySystemRun cfg st mode).2 = st := by
    unfold armSecuritySystemRun
    split_ifs <;> rfl
  exact ⟨h1, by rw [h1], rfl⟩

/-- C9 counterexample: the claim lists type tag, battery flag, edge flag and
accessory flags as the only inputs of classification, but two device records
agreeing on all of them while differing in the status field classify
differently: the non-disabled record yields a descriptor and the disabled
record yields none. -/
theorem classification_depends_on_status :
    sensorOk.data.deviceType = sensorDisabled.data.deviceType
  ∧ sensorOk.data.batteryStatus = sensorDisabled.data.batteryStatus
  ∧ locationDeviceClassify sensorOk ≠ locationDeviceClassify sensorDisabled :=
  ⟨rfl, rfl, by decide⟩

/-- C9 amended: classification is a deterministic total function of the
listed inputs together with the disabled-status flag. Two generic device
records agreeing on type tag, on whether the battery status is "none", and
on whether the status is "disabled" classify to the same type and interface
set; two camera records agreeing on the doorbot, edge, battery, light and
siren flags receive the same type and interface set. -/
theorem classification_deterministic :
    (∀ d1 d2 : RingDevice,
        d1.data.deviceType = d2.data.deviceType →
        (d1.data.batteryStatus = batteryNoneLit
          ↔ d2.data.batteryStatus = batteryNoneLit) →
        (d1.data.status = disabledLit ↔ d2.data.status = disabledLit) →
        Option.map (fun x => (x.2.1, x.2.2)) (locationDeviceClassify d1)
          = Option.map (fun x => (x.2.1, x.2.2)) (locationDeviceClassify d2))
  ∧ (∀ (l1 l2 : String) (c1 c2 : RingCamera),
        c1.isDoorbot = c2.isDoorbot →
        c1.isRingEdgeEnabled = c2.isRingEdgeEnabled →
        c1.operatingOnBattery = c2.operatingOnBattery →
        c1.hasLight = c2.hasLight →
        c1.hasSiren = c2.hasSiren →
        (cameraDescriptor l1 c1).type = (cameraDescriptor l2 c2).type
        ∧ (cameraDescriptor l1 c1).interfaces
            = (cameraDescriptor l2 c2).interfaces) := by
  constructor
  · intro d1 d2 hdt hbat hstat
    have hs : (d1.data.status == disabledLit)
        = (d2.data.status == disabledLit) := beq_congr_of_iff hstat
    have hb : (d1.data.batteryStatus != batteryNoneLit)
        = (d2.data.batteryStatus != batteryNoneLit) := by
      have := beq_congr_of_iff hbat
      simp [bne, this]
    unfold locationDeviceClassify batteryFix
    simp only [hdt, hs, hb]
    split_ifs <;> simp
  · intro l1 l2 c1 c2 h1 h2 h3 h4 h5
    exact ⟨by simp [cameraDescriptor, h1],
      by simp [cameraDescriptor, cameraInterfaces, h1, h2, h3, h4, h5]⟩

/-- C9 witness: the determinism theorem applied to two concrete device
records and two concrete camera records that agree on the classification
inputs while differing in id, name, metadata and (for the devices) the
non-disabled status value. -/
theorem classification_deterministic_witness :
    Option.map (fun x => (x.2.1, x.2.2)) (locationDeviceClassify sensorOk)
      = Option.map (fun x => (x.2.1, x.2.2))
          (locationDeviceClassify sensorOkOther)
  ∧ (cameraDescriptor locAId doorbotCam).type
      = (cameraDescriptor locBId doorbotCamOther).type
  ∧ (cameraDescriptor locAId doorbotCam).interfaces
      = (cameraDescriptor locBId doorbotCamOther).interfaces :=
  ⟨classification_deterministic.1 sensorOk sensorOkOther rfl (by decide)
      (by decide),
    (classification_deterministic.2 locAId locBId doorbotCam doorbotCamOther
        rfl rfl rfl rfl rfl).1,
    (classification_deterministic.2 locAId locBId doorbotCam doorbotCamOther
        rfl rfl rfl rfl rfl).2⟩

/-- C10: a mode value outside the four SecuritySystemMode members falls
through every branch of armSecuritySystem: the call completes, issues no
vendor command, and returns the controller state unchanged. -/
theorem arm_unknown_mode_noop (cfg : String) (st : ControllerState)
    (mode : SecuritySystemMode)
    (h1 : mode ≠ SecuritySystemMode.AwayArmed)
    (h2 : mode ≠ SecuritySystemMode.HomeArmed)
    (h3 : mode ≠ SecuritySystemMode.NightArmed)
    (h4 : mode ≠ SecuritySystemMode.Disarmed) :
    armSecuritySystemRun cfg st mode = ([], st) := by
  simp [armSecuritySystemRun, h1, h2, h3, h4]

/-- C10 witness: the unknown-mode theorem applied to a concrete mode string
outside the enum, discharging the four disequality hypotheses. -/
theorem arm_unknown_mode_noop_witness :
    strangeMode ≠ SecuritySystemMode.AwayArmed
  ∧ armSecuritySystemRun cfgAway emptyState strangeMode = ([], emptyState) :=
  ⟨by decide,
    arm_unknown_mode_noop cfgAway emptyState strangeMode (by decide)
      (by decide) (by decide) (by decide)⟩

end RingLocation
